import Mathlib

/-!
Verification development for the `waza` skill-evaluation repository.

This file shallowly embeds the pieces of the repository that the claims
are about:

* `src/internal/graders/data/eval_wrapper.py` — the sandboxed assertion
  evaluator (JSON in on stdin, JSON out on stdout).  Python's restricted
  `eval` over the fixed variable namespace is embedded as a small
  expression interpreter (`Expr`/`evalExpr`) over Python-like values
  (`Value`), returning `Except EvalError Value`; per-assertion results and
  the `results` list follow the source lines 44-55 exactly.
* `src/examples/code-explainer/graders/explanation_quality.py` — the
  explanation-quality grader, including an executable regular-expression
  matcher covering exactly the constructs its patterns use.
* `src/skill_eval/executors/copilot.py` — the Copilot executor's
  `execute` control flow, with the awaited session outcome abstracted as
  an explicit outcome parameter.
-/

namespace Waza

/-! ## Python-like values (the JSON-derived data the wrapper works on) -/

/-- The callable built-ins placed in the evaluation namespace by
`eval_wrapper.py` lines 27-36 (`len`, `any`, `all`, `str`, `int`,
`float`, `bool`, `list`, `dict`). -/
inductive Builtin where
  | len | any | all | str | int | float | bool | list | dict
deriving DecidableEq, Repr

def Builtin.name : Builtin → String
  | .len => "len" | .any => "any" | .all => "all" | .str => "str"
  | .int => "int" | .float => "float" | .bool => "bool"
  | .list => "list" | .dict => "dict"

/-- Python runtime values as the wrapper sees them: the JSON-decoded data
(`None`, booleans, integers, strings, lists, string-keyed objects) plus
the built-in functions and the `re` module bound into the evaluation
namespace.  Floats do not occur in the claims and are not modelled.
Dictionaries are association lists; JSON objects have string keys and no
duplicate keys. -/
inductive Value where
  | none
  | bool (b : Bool)
  | int (n : Int)
  | str (s : String)
  | list (xs : List Value)
  | dict (xs : List (String × Value))
  | builtin (b : Builtin)
  | pymodule (n : String)
deriving Repr

/-- `type(v).__name__`, as it appears in Python error messages. -/
def typeName : Value → String
  | .none => "NoneType"
  | .bool _ => "bool"
  | .int _ => "int"
  | .str _ => "str"
  | .list _ => "list"
  | .dict _ => "dict"
  | .builtin _ => "builtin_function_or_method"
  | .pymodule _ => "module"

/-- Python truthiness (`bool(v)`): `None`/`False`/`0`/`""`/`[]`/`{}` are
falsy, everything else (including functions and modules) is truthy. -/
def pyTruthy : Value → Bool
  | .none => false
  | .bool b => b
  | .int n => n != 0
  | .str s => s != ""
  | .list xs => !xs.isEmpty
  | .dict xs => !xs.isEmpty
  | .builtin _ => true
  | .pymodule _ => true

mutual

/-- Python `repr` on JSON-derived values.  Model simplification: string
repr always uses single quotes and performs no escaping (the transcripts
this repository feeds to the wrapper contain no quotes needing escapes). -/
def pyRepr : Value → String
  | .none => "None"
  | .bool b => if b then "True" else "False"
  | .int n => toString n
  | .str s => "'" ++ s ++ "'"
  | .list xs => "[" ++ String.intercalate ", " (pyReprList xs) ++ "]"
  | .dict xs => "\x7b" ++ String.intercalate ", " (pyReprPairs xs) ++ "\x7d"
  | .builtin b => "<built-in function " ++ b.name ++ ">"
  | .pymodule n => "<module '" ++ n ++ "'>"

def pyReprList : List Value → List String
  | [] => []
  | v :: vs => pyRepr v :: pyReprList vs

def pyReprPairs : List (String × Value) → List String
  | [] => []
  | (k, v) :: vs => ("'" ++ k ++ "': " ++ pyRepr v) :: pyReprPairs vs

end

/-- Python `str(v)`: identity on strings, `repr` otherwise (which agrees
with `str` on `None`, booleans, integers, lists and dicts). -/
def pyStr : Value → String
  | .str s => s
  | v => pyRepr v

mutual

/-- Python `==` on the modelled values.  Mixed `bool`/`int` comparisons
are numeric (as in Python, where `bool` is an `int` subtype); values of
otherwise different types compare unequal without raising.  Model
simplification: dictionaries are compared field-by-field in their given
order (JSON objects in this repository arrive in a canonical order; no
claim compares dictionaries). -/
def pyEq : Value → Value → Bool
  | .none, .none => true
  | .bool a, .bool b => a == b
  | .bool a, .int b => (if a then (1 : Int) else 0) == b
  | .int a, .bool b => a == (if b then (1 : Int) else 0)
  | .int a, .int b => a == b
  | .str a, .str b => a == b
  | .list a, .list b => pyEqList a b
  | .dict a, .dict b => pyEqPairs a b
  | .builtin a, .builtin b => a == b
  | .pymodule a, .pymodule b => a == b
  | _, _ => false

def pyEqList : List Value → List Value → Bool
  | [], [] => true
  | x :: xs, y :: ys => pyEq x y && pyEqList xs ys
  | _, _ => false

def pyEqPairs : List (String × Value) → List (String × Value) → Bool
  | [], [] => true
  | (k, v) :: xs, (l, w) :: ys => k == l && pyEq v w && pyEqPairs xs ys
  | _, _ => false

end

/-! ## Substring membership (Python's `in` on strings) -/

/-- `startsList n h`: `h` begins with `n` (character lists). -/
def startsList : List Char → List Char → Bool
  | [], _ => true
  | _ :: _, [] => false
  | c :: cs, d :: ds => c == d && startsList cs ds

/-- Python's `needle in hay` on strings, as a scan over suffixes. -/
def pyInSub (n : List Char) : List Char → Bool
  | [] => startsList n []
  | h :: t => startsList n (h :: t) || pyInSub n t

/-- `strContains needle hay` models Python's `needle in hay`. -/
def strContains (needle hay : String) : Bool :=
  pyInSub needle.data hay.data

theorem startsList_iff (n h : List Char) : startsList n h = true ↔ n <+: h := by
  induction n generalizing h with
  | nil => simp [startsList]
  | cons c cs ih =>
    cases h with
    | nil => simp [startsList]
    | cons d ds =>
      simp only [startsList, Bool.and_eq_true, beq_iff_eq, ih,
        List.cons_prefix_cons]

theorem pyInSub_iff (n h : List Char) : pyInSub n h = true ↔ n <:+: h := by
  induction h with
  | nil =>
    constructor
    · intro hh
      cases n with
      | nil => exact List.infix_rfl
      | cons c cs => simp [pyInSub, startsList] at hh
    · intro hh
      have hn : n = [] := List.sublist_nil.mp hh.sublist
      subst hn; rfl
  | cons c t ih =>
    simp only [pyInSub, Bool.or_eq_true, startsList_iff, ih,
      List.infix_cons_iff]

/-! ## Exceptions the restricted `eval` can raise -/

/-- The exceptions the sandboxed evaluation can raise, with the payload
needed to reproduce CPython's `str(e)`.  `dictKeyNotStr` and
`floatNotModelled` are model restrictions (string-keyed JSON dicts; no
floats); no claim exercises them. -/
inductive EvalError where
  | nameError (n : String)
  | keyError (k : String)
  | listIndexOutOfRange
  | stringIndexOutOfRange
  | notSubscriptable (ty : String)
  | badListIndexType (ty : String)
  | badStrIndexType (ty : String)
  | noLen (ty : String)
  | notIterable (ty : String)
  | notCallable (ty : String)
  | cmpUnsupported (op ta tb : String)
  | badLiteralForInt (s : String)
  | badIntArg (ty : String)
  | takesOneArg (fn : String)
  | dictKeyNotStr (ty : String)
  | floatNotModelled
deriving DecidableEq, Repr

/-- `str(e)` for each modelled exception, as CPython renders it. -/
def EvalError.message : EvalError → String
  | .nameError n => "name '" ++ n ++ "' is not defined"
  | .keyError k => "'" ++ k ++ "'"
  | .listIndexOutOfRange => "list index out of range"
  | .stringIndexOutOfRange => "string index out of range"
  | .notSubscriptable ty => "'" ++ ty ++ "' object is not subscriptable"
  | .badListIndexType ty => "list indices must be integers or slices, not " ++ ty
  | .badStrIndexType ty => "string indices must be integers, not '" ++ ty ++ "'"
  | .noLen ty => "object of type '" ++ ty ++ "' has no len()"
  | .notIterable ty => "'" ++ ty ++ "' object is not iterable"
  | .notCallable ty => "'" ++ ty ++ "' object is not callable"
  | .cmpUnsupported op ta tb =>
      "'" ++ op ++ "' not supported between instances of '" ++ ta ++ "' and '" ++ tb ++ "'"
  | .badLiteralForInt s => "invalid literal for int() with base 10: '" ++ s ++ "'"
  | .badIntArg ty =>
      "int() argument must be a string, a bytes-like object or a real number, not '" ++ ty ++ "'"
  | .takesOneArg fn => fn ++ "() takes exactly one argument"
  | .dictKeyNotStr ty => "dict lookup with non-string key of type '" ++ ty ++ "' is not modelled"
  | .floatNotModelled => "float() is not modelled"

/-! ## The expression language of the sandbox

`eval_wrapper.py` delegates assertion strings to Python's `eval`.  The
embedding interprets assertion expressions directly: literals, name
lookup, subscription, calls and the comparison operators the repository's
assertions use. -/

inductive BinOp where
  | eq | gt
deriving DecidableEq, Repr

inductive Expr where
  | lit (v : Value)
  | name (n : String)
  | index (e i : Expr)
  | call (f : Expr) (args : List Expr)
  | binop (op : BinOp) (a b : Expr)
deriving Repr

/-- Python subscription `v[i]`, including negative list/string indices
(`True`/`False` count as the indices `1`/`0`, as in Python). -/
def pyIndex (v i : Value) : Except EvalError Value :=
  let ix : Value :=
    match i with
    | .bool b => .int (if b then 1 else 0)
    | w => w
  match v, ix with
  | .list xs, .int n =>
      let m : Int := if n < 0 then n + xs.length else n
      if m < 0 then .error .listIndexOutOfRange
      else
        match xs.get? m.toNat with
        | some x => .ok x
        | Option.none => .error .listIndexOutOfRange
  | .list _, w => .error (.badListIndexType (typeName w))
  | .str s, .int n =>
      let m : Int := if n < 0 then n + s.length else n
      if m < 0 then .error .stringIndexOutOfRange
      else
        match s.data.get? m.toNat with
        | some c => .ok (.str (String.singleton c))
        | Option.none => .error .stringIndexOutOfRange
  | .str _, w => .error (.badStrIndexType (typeName w))
  | .dict xs, .str k =>
      match xs.find? (fun p => p.1 == k) with
      | some p => .ok p.2
      | Option.none => .error (.keyError k)
  | .dict _, w => .error (.dictKeyNotStr (typeName w))
  | w, _ => .error (.notSubscriptable (typeName w))

/-- `len(v)`. -/
def pyLen (v : Value) : Except EvalError Value :=
  match v with
  | .str s => .ok (.int s.length)
  | .list xs => .ok (.int xs.length)
  | .dict xs => .ok (.int xs.length)
  | w => .error (.noLen (typeName w))

/-- The elements Python iterates over for `any`/`all`/`list`: list
elements, string characters (as 1-character strings), dict keys. -/
def pyIterate (v : Value) : Except EvalError (List Value) :=
  match v with
  | .list xs => .ok xs
  | .str s => .ok (s.data.map (fun c => .str (String.singleton c)))
  | .dict xs => .ok (xs.map (fun p => .str p.1))
  | w => .error (.notIterable (typeName w))

/-- Application of one of the allow-listed built-ins.  Zero-argument
constructor calls (`bool()`, `int()`, `str()`, `list()`, `dict()`) return
the Python empty value of the type. -/
def applyBuiltin : Builtin → List Value → Except EvalError Value
  | .len, [v] => pyLen v
  | .len, _ => .error (.takesOneArg "len")
  | .any, [v] => (pyIterate v).map (fun xs => .bool (xs.any pyTruthy))
  | .any, _ => .error (.takesOneArg "any")
  | .all, [v] => (pyIterate v).map (fun xs => .bool (xs.all pyTruthy))
  | .all, _ => .error (.takesOneArg "all")
  | .str, [] => .ok (.str "")
  | .str, [v] => .ok (.str (pyStr v))
  | .str, _ => .error (.takesOneArg "str")
  | .int, [] => .ok (.int 0)
  | .int, [.int n] => .ok (.int n)
  | .int, [.bool b] => .ok (.int (if b then 1 else 0))
  | .int, [.str s] =>
      match s.toInt? with
      | some n => .ok (.int n)
      | Option.none => .error (.badLiteralForInt s)
  | .int, [v] => .error (.badIntArg (typeName v))
  | .int, _ => .error (.takesOneArg "int")
  | .bool, [] => .ok (.bool false)
  | .bool, [v] => .ok (.bool (pyTruthy v))
  | .bool, _ => .error (.takesOneArg "bool")
  | .list, [] => .ok (.list [])
  | .list, [v] => (pyIterate v).map .list
  | .list, _ => .error (.takesOneArg "list")
  | .dict, [] => .ok (.dict [])
  | .dict, [.dict xs] => .ok (.dict xs)
  | .dict, [v] => .error (.notIterable (typeName v))
  | .dict, _ => .error (.takesOneArg "dict")
  | .float, _ => .error .floatNotModelled

/-- Python `a > b` on the modelled values: numeric on `int`/`bool`,
lexicographic on strings; every other combination raises `TypeError`
(for lists — which Python does order — ordering is not modelled; no
claim compares lists). -/
def pyGt (a b : Value) : Except EvalError Bool :=
  match a, b with
  | .int x, .int y => .ok (y < x)
  | .int x, .bool y => .ok ((if y then (1 : Int) else 0) < x)
  | .bool x, .int y => .ok (y < (if x then (1 : Int) else 0))
  | .bool x, .bool y => .ok ((if y then (1 : Int) else 0) < (if x then (1 : Int) else 0))
  | .str x, .str y => .ok (y < x)
  | x, y => .error (.cmpUnsupported ">" (typeName x) (typeName y))

def applyBinOp : BinOp → Value → Value → Except EvalError Value
  | .eq, a, b => .ok (.bool (pyEq a b))
  | .gt, a, b => (pyGt a b).map .bool

/-! ## The wrapper's input and evaluation namespace -/

/-- One transcript event as the wrapper reads it: `t.get("type")` and
`t.get("content", "")` are the only accesses (`eval_wrapper.py` line 25);
per the executor boundary every event carries a type string and an
optional payload. -/
structure Event where
  type : String
  content : Option Value
deriving Repr

/-- The wrapper re-exposes an event to assertions as the dict it came
from. -/
def Event.toValue (e : Event) : Value :=
  .dict (("type", .str e.type) ::
    (match e.content with
     | some c => [("content", c)]
     | Option.none => []))

/-- `"error" in t.get("type") or "error" in str(t.get("content", ""))`
(`eval_wrapper.py` line 25). -/
def eventHasError (t : Event) : Bool :=
  strContains "error" t.type || strContains "error" (pyStr (t.content.getD (.str "")))

/-- The JSON object the wrapper reads from standard input
(`eval_wrapper.py` lines 11-12): fields `output`, `outcome`,
`transcript`, `tool_calls`, `duration_ms` and `assertions`. -/
structure EvalInput where
  output : Value
  outcome : Value
  transcript : List Event
  tool_calls : List Value
  duration_ms : Int
  assertions : List Expr

/-- The derived `errors` list (`eval_wrapper.py` line 25). -/
def errorsOf (input : EvalInput) : List Event :=
  input.transcript.filter eventHasError

/-- The `eval_context` dict (`eval_wrapper.py` lines 20-39), in source
order. -/
def eval_context (input : EvalInput) : List (String × Value) :=
  [("output", if pyTruthy input.output then input.output else .str ""),
   ("outcome", input.outcome),
   ("transcript", .list (input.transcript.map Event.toValue)),
   ("tool_calls", .list input.tool_calls),
   ("errors", .list ((errorsOf input).map Event.toValue)),
   ("duration_ms", .int input.duration_ms),
   ("len", .builtin .len),
   ("any", .builtin .any),
   ("all", .builtin .all),
   ("re", .pymodule "re"),
   ("str", .builtin .str),
   ("int", .builtin .int),
   ("float", .builtin .float),
   ("bool", .builtin .bool),
   ("list", .builtin .list),
   ("dict", .builtin .dict),
   ("True", .bool true),
   ("False", .bool false)]

/-- Name resolution of `eval(assertion, {"__builtins__": {}}, eval_context)`
(`eval_wrapper.py` line 48): locals (`eval_context`) first, then the
globals dict, which holds the single key `"__builtins__"` bound to an
empty dict; the empty `__builtins__` table means no further fallback. -/
def lookupName (input : EvalInput) (n : String) : Option Value :=
  match (eval_context input).find? (fun p => p.1 == n) with
  | some p => some p.2
  | Option.none => if n == "__builtins__" then some (.dict []) else Option.none

mutual

/-- Evaluation of one assertion expression in the restricted namespace. -/
def evalExpr (input : EvalInput) : Expr → Except EvalError Value
  | .lit v => .ok v
  | .name n =>
      match lookupName input n with
      | some v => .ok v
      | Option.none => .error (.nameError n)
  | .index e i => do
      let v ← evalExpr input e
      let w ← evalExpr input i
      pyIndex v w
  | .call f args => do
      let fv ← evalExpr input f
      let avs ← evalArgs input args
      match fv with
      | .builtin b => applyBuiltin b avs
      | w => .error (.notCallable (typeName w))
  | .binop op a b => do
      let av ← evalExpr input a
      let bv ← evalExpr input b
      applyBinOp op av bv

def evalArgs (input : EvalInput) : List Expr → Except EvalError (List Value)
  | [] => .ok []
  | e :: es => do
      let v ← evalExpr input e
      let vs ← evalArgs input es
      .ok (v :: vs)

end

/-- One iteration of the result loop (`eval_wrapper.py` lines 46-51):
`results.append("" if not not result else "fail")` on success,
`results.append(str(e))` on exception. -/
def runAssertion (input : EvalInput) (a : Expr) : String :=
  match evalExpr input a with
  | .ok result => if !(!pyTruthy result) then "" else "fail"
  | .error e => e.message

/-- The `results` list accumulated by the loop (`eval_wrapper.py`
lines 44-51). -/
def results (input : EvalInput) : List String :=
  input.assertions.map (runAssertion input)

/-- The single JSON object printed to standard output
(`eval_wrapper.py` lines 53-55): `{"results": results}`. -/
def wrapperOutput (input : EvalInput) : Value :=
  .dict [("results", .list ((results input).map Value.str))]

/-! ## Theorems about the sandboxed evaluator -/

theorem len_ge_five_ne (s : String) (h : 5 ≤ s.length) : s ≠ "" ∧ s ≠ "fail" := by
  refine ⟨fun he => ?_, fun he => ?_⟩
  · rw [he] at h; exact absurd h (by decide)
  · rw [he] at h; exact absurd h (by decide)

theorem len_ge_of_append_left (s t : String) (h : 5 ≤ s.length) : 5 ≤ (s ++ t).length := by
  rw [String.length_append]; omega

theorem len_ge_of_append_right (s t : String) (h : 5 ≤ t.length) : 5 ≤ (s ++ t).length := by
  rw [String.length_append]; omega

theorem quoted_ne (k : String) : ("'" ++ k ++ "'") ≠ "" ∧ ("'" ++ k ++ "'") ≠ "fail" := by
  have hdata : ("'" ++ k ++ "'").data = '\'' :: (k.data ++ ['\'']) := by
    rw [String.data_append, String.data_append]
    rfl
  refine ⟨fun he => ?_, fun he => ?_⟩
  · have hd := congrArg String.data he
    rw [hdata] at hd
    exact absurd hd (by simp)
  · have hd := congrArg String.data he
    rw [hdata] at hd
    have hfail : ("fail" : String).data = ['f', 'a', 'i', 'l'] := rfl
    rw [hfail] at hd
    injection hd with h1 _
    exact absurd h1 (by decide)

/-- Every exception message the sandbox can produce is distinct from both
the pass marker `""` and the ordinary-failure marker `"fail"`. -/
theorem message_ne_empty_ne_fail (e : EvalError) :
    EvalError.message e ≠ "" ∧ EvalError.message e ≠ "fail" := by
  cases e with
  | nameError n =>
      exact len_ge_five_ne _ (len_ge_of_append_right _ _ (by decide))
  | keyError k => exact quoted_ne k
  | listIndexOutOfRange => exact ⟨by decide, by decide⟩
  | stringIndexOutOfRange => exact ⟨by decide, by decide⟩
  | notSubscriptable ty =>
      exact len_ge_five_ne _ (len_ge_of_append_right _ _ (by decide))
  | badListIndexType ty =>
      exact len_ge_five_ne _ (len_ge_of_append_left _ _ (by decide))
  | badStrIndexType ty =>
      exact len_ge_five_ne _
        (len_ge_of_append_left _ _ (len_ge_of_append_left _ _ (by decide)))
  | noLen ty =>
      exact len_ge_five_ne _ (len_ge_of_append_right _ _ (by decide))
  | notIterable ty =>
      exact len_ge_five_ne _ (len_ge_of_append_right _ _ (by decide))
  | notCallable ty =>
      exact len_ge_five_ne _ (len_ge_of_append_right _ _ (by decide))
  | cmpUnsupported op ta tb =>
      exact len_ge_five_ne _
        (len_ge_of_append_left _ _ (len_ge_of_append_left _ _
          (len_ge_of_append_left _ _ (len_ge_of_append_left _ _
            (len_ge_of_append_right _ _ (by decide))))))
  | badLiteralForInt s =>
      exact len_ge_five_ne _
        (len_ge_of_append_left _ _ (len_ge_of_append_left _ _ (by decide)))
  | badIntArg ty =>
      exact len_ge_five_ne _
        (len_ge_of_append_left _ _ (len_ge_of_append_left _ _ (by decide)))
  | takesOneArg fn =>
      exact len_ge_five_ne _ (len_ge_of_append_right _ _ (by decide))
  | dictKeyNotStr ty =>
      exact len_ge_five_ne _
        (len_ge_of_append_left _ _ (len_ge_of_append_left _ _ (by decide)))
  | floatNotModelled => exact ⟨by decide, by decide⟩

/-- A concrete wrapper input used by witnesses: non-empty output, no
transcript events, no tool calls. -/
def sampleInput : EvalInput :=
  { output := .str "hello", outcome := .none, transcript := [], tool_calls := [],
    duration_ms := 7, assertions := [] }

/-- C1: for every assertion evaluated against a context, a truthy value
yields the empty string (pass), a falsy value yields the literal
`"fail"`, and a raised exception yields that exception's string
representation, which is distinct from both `"fail"` and `""`. -/
theorem assertion_result_classification (input : EvalInput) (a : Expr) :
    (∀ v, evalExpr input a = .ok v →
      runAssertion input a = if pyTruthy v then "" else "fail") ∧
    (∀ e, evalExpr input a = .error e →
      runAssertion input a = EvalError.message e ∧
        EvalError.message e ≠ "fail" ∧ EvalError.message e ≠ "") := by
  constructor
  · intro v hv
    simp [runAssertion, hv, Bool.not_not]
  · intro e he
    exact ⟨by simp [runAssertion, he], (message_ne_empty_ne_fail e).2,
      (message_ne_empty_ne_fail e).1⟩

/-- Witness for C1: at a concrete input, a truthy assertion gives `""`
and an assertion raising `NameError` gives the exception text. -/
theorem assertion_result_classification_witness :
    runAssertion sampleInput (.lit (.bool true)) = "" ∧
    runAssertion sampleInput (.name "os") = "name 'os' is not defined" := by
  constructor
  · have h := (assertion_result_classification sampleInput (.lit (.bool true))).1
      (.bool true) rfl
    simpa [pyTruthy] using h
  · exact ((assertion_result_classification sampleInput (.name "os")).2
      (.nameError "os") rfl).1

/-- The assertion string `"len(output) > 0"`. -/
def lenOutputAssertion : Expr :=
  .binop .gt (.call (.name "len") [.name "output"]) (.lit (.int 0))

/-- The assertion string `"tool_calls[0]['name'] == 'missing'"`. -/
def toolCallAssertion : Expr :=
  .binop .eq
    (.index (.index (.name "tool_calls") (.lit (.int 0))) (.lit (.str "name")))
    (.lit (.str "missing"))

/-- The end-to-end example-2 input: the two assertions above against a
context with empty `tool_calls`. -/
def c2Input (out oc : Value) (tr : List Event) (dur : Int) : EvalInput :=
  { output := out, outcome := oc, transcript := tr, tool_calls := [],
    duration_ms := dur, assertions := [lenOutputAssertion, toolCallAssertion] }

/-- C2: on the assertion list `["len(output) > 0",
"tool_calls[0]['name'] == 'missing'"]` with non-empty output text and
empty `tool_calls`, the results are exactly `["", "<IndexError
message>"]`, the IndexError message being `"list index out of range"`. -/
theorem example2_results (s : String) (hs : s ≠ "") (oc : Value)
    (tr : List Event) (dur : Int) :
    results (c2Input (.str s) oc tr dur) = ["", "list index out of range"] := by
  obtain ⟨data⟩ := s
  cases data with
  | nil => exact absurd rfl hs
  | cons c cs =>
    have h2 : runAssertion (c2Input (.str ⟨c :: cs⟩) oc tr dur) toolCallAssertion
        = "list index out of range" := rfl
    have h1 : runAssertion (c2Input (.str ⟨c :: cs⟩) oc tr dur) lenOutputAssertion
        = "" := by
      show (if !(!pyTruthy (.bool (decide ((0:Int) < ((String.mk (c :: cs)).length : Int))))) then "" else "fail") = ""
      have hgt : (decide ((0:Int) < ((String.mk (c :: cs)).length : Int))) = true := by
        simp [String.length]
      rw [hgt]
      rfl
    show List.map (runAssertion (c2Input (.str ⟨c :: cs⟩) oc tr dur))
        [lenOutputAssertion, toolCallAssertion] = ["", "list index out of range"]
    rw [List.map_cons, List.map_cons, List.map_nil, h1, h2]

/-- Witness for C2 at the concrete output `"x"`. -/
theorem example2_results_witness :
    ("x" : String) ≠ "" ∧
    results (c2Input (.str "x") .none [] 0) = ["", "list index out of range"] :=
  ⟨by decide, example2_results "x" (by decide) .none [] 0⟩

/-- The allow-list of names from the claim: exactly the keys of
`eval_context` (`eval_wrapper.py` lines 20-39), in source order. -/
def allowedNames : List String :=
  ["output", "outcome", "transcript", "tool_calls", "errors", "duration_ms",
   "len", "any", "all", "re", "str", "int", "float", "bool", "list", "dict",
   "True", "False"]

theorem keys_eval_context (input : EvalInput) :
    (eval_context input).map Prod.fst = allowedNames := rfl

theorem find?_key_isSome (l : List (String × Value)) (n : String) :
    (l.find? (fun p => p.1 == n)).isSome = true ↔ n ∈ l.map Prod.fst := by
  induction l with
  | nil => simp [List.find?]
  | cons p t ih =>
    by_cases h : p.1 = n
    · simp [List.find?_cons_of_pos, h]
    · have hb : (p.1 == n) = false := by simp [h]
      rw [List.find?_cons_of_neg _ (by simp [hb])]
      simp [ih, h]
      intro hn
      exact absurd hn.symm h

/-- Counterexample to C4: the evaluation namespace exposes one name
outside the allow-list.  Because `eval` is called with globals
`{"__builtins__": {}}`, the name `__builtins__` resolves to that empty
dict, so the assertion `len(__builtins__) == 0` — which references a
name outside the allow-list — evaluates truthy and silently passes with
result `""` instead of yielding an error string. -/
theorem allowlist_counterexample :
    "__builtins__" ∉ allowedNames ∧
    runAssertion sampleInput
      (.binop .eq (.call (.name "len") [.name "__builtins__"]) (.lit (.int 0))) = "" :=
  ⟨by decide, rfl⟩

/-- C4 amended: the evaluation environment exposes exactly the fixed
allow-list of names plus `__builtins__` (bound to an empty table, which
is what disables the host built-ins); an assertion referencing any name
outside these yields the `NameError` string, which is non-empty and
distinct from `"fail"`. -/
theorem env_allowlist_amended :
    (∀ (input : EvalInput) (n : String),
      (lookupName input n).isSome = true ↔ (n ∈ allowedNames ∨ n = "__builtins__")) ∧
    (∀ (input : EvalInput) (n : String), n ∉ allowedNames → n ≠ "__builtins__" →
      runAssertion input (.name n) = EvalError.message (.nameError n) ∧
      runAssertion input (.name n) ≠ "" ∧ runAssertion input (.name n) ≠ "fail") := by
  constructor
  · intro input n
    unfold lookupName
    cases h : (eval_context input).find? (fun p => p.1 == n) with
    | some p =>
      simp only [Option.isSome_some, true_iff]
      refine Or.inl ?_
      have hm := (find?_key_isSome (eval_context input) n).mp (by rw [h]; rfl)
      rwa [keys_eval_context] at hm
    | none =>
      by_cases hb : n = "__builtins__"
      · simp [hb]
      · have hmem : n ∉ allowedNames := by
          intro hn
          have : ((eval_context input).find? (fun p => p.1 == n)).isSome = true :=
            (find?_key_isSome _ n).mpr (by rwa [keys_eval_context])
          rw [h] at this
          exact absurd this (by simp)
        simp [hb, hmem]
  · intro input n hna hnb
    have hfind : (eval_context input).find? (fun p => p.1 == n) = Option.none := by
      cases hf : (eval_context input).find? (fun p => p.1 == n) with
      | some p =>
        have hm := (find?_key_isSome (eval_context input) n).mp (by rw [hf]; rfl)
        rw [keys_eval_context] at hm
        exact absurd hm hna
      | none => rfl
    have hlook : lookupName input n = Option.none := by
      unfold lookupName
      rw [hfind]
      simp [hnb]
    have heval : evalExpr input (.name n) = .error (.nameError n) := by
      unfold evalExpr
      rw [hlook]
    have hrun : runAssertion input (.name n) = EvalError.message (.nameError n) := by
      unfold runAssertion
      rw [heval]
    exact ⟨hrun, hrun ▸ (message_ne_empty_ne_fail (.nameError n)).1,
      hrun ▸ (message_ne_empty_ne_fail (.nameError n)).2⟩

/-- Witness for the amended C4: the host builtin name `open` is outside
the allow-list and yields the `NameError` text. -/
theorem env_allowlist_amended_witness :
    ("open" ∉ allowedNames) ∧ ("open" : String) ≠ "__builtins__" ∧
    runAssertion sampleInput (.name "open") = "name 'open' is not defined" :=
  ⟨by decide, by decide,
    (env_allowlist_amended.2 sampleInput "open" (by decide) (by decide)).1⟩

theorem eventHasError_iff (t : Event) :
    eventHasError t = true ↔
      ("error".data <:+: t.type.data ∨
       "error".data <:+: (pyStr (t.content.getD (.str ""))).data) := by
  simp only [eventHasError, Bool.or_eq_true, strContains, pyInSub_iff]

/-- C5: the `errors` list bound in the evaluation environment is exactly
the subsequence (in transcript order) of transcript events whose type
contains the substring `"error"` or whose stringified payload contains
the substring `"error"`. -/
theorem errors_characterization (input : EvalInput) :
    lookupName input "errors" =
      some (.list ((errorsOf input).map Event.toValue)) ∧
    (errorsOf input).Sublist input.transcript ∧
    (∀ t : Event, t ∈ errorsOf input ↔
      (t ∈ input.transcript ∧
        ("error".data <:+: t.type.data ∨
         "error".data <:+: (pyStr (t.content.getD (.str ""))).data))) := by
  refine ⟨rfl, List.filter_sublist _, ?_⟩
  intro t
  rw [errorsOf, List.mem_filter, eventHasError_iff]

mutual

theorem evalExpr_congr (input input' : EvalInput)
    (h : eval_context input' = eval_context input) :
    ∀ a : Expr, evalExpr input' a = evalExpr input a
  | .lit v => rfl
  | .name n => by
      simp only [evalExpr, lookupName, h]
  | .index e i => by
      simp only [evalExpr, evalExpr_congr input input' h e,
        evalExpr_congr input input' h i]
  | .call f args => by
      simp only [evalExpr, evalExpr_congr input input' h f,
        evalArgs_congr input input' h args]
  | .binop op a b => by
      simp only [evalExpr, evalExpr_congr input input' h a,
        evalExpr_congr input input' h b]

theorem evalArgs_congr (input input' : EvalInput)
    (h : eval_context input' = eval_context input) :
    ∀ as : List Expr, evalArgs input' as = evalArgs input as
  | [] => rfl
  | e :: es => by
      simp only [evalArgs, evalExpr_congr input input' h e,
        evalArgs_congr input input' h es]

end

theorem runAssertion_congr (input input' : EvalInput)
    (h : eval_context input' = eval_context input) :
    runAssertion input' = runAssertion input := by
  funext a
  simp only [runAssertion, evalExpr_congr input input' h a]

/-- C6: the machine-readable output is the single JSON object
`{"results": ...}` whose `results` field has exactly one string per
input assertion, positionally aligned; and replacing any other assertion
(including by one that raises) leaves a given position's result
unchanged — one raising assertion never aborts or alters the others. -/
theorem results_alignment (input : EvalInput) :
    wrapperOutput input = .dict [("results", .list ((results input).map Value.str))] ∧
    (results input).length = input.assertions.length ∧
    (∀ i : Nat, (results input)[i]? = (input.assertions[i]?).map (runAssertion input)) ∧
    (∀ (i j : Nat) (b : Expr), i ≠ j →
      (results { input with assertions := input.assertions.set j b })[i]? =
        (results input)[i]?) := by
  refine ⟨rfl, by simp [results], ?_, ?_⟩
  · intro i
    simp [results, List.getElem?_map]
  · intro i j b hij
    have hctx : eval_context { input with assertions := input.assertions.set j b } =
        eval_context input := rfl
    show ((input.assertions.set j b).map
        (runAssertion { input with assertions := input.assertions.set j b }))[i]? =
      (input.assertions.map (runAssertion input))[i]?
    rw [runAssertion_congr input _ hctx, List.map_set, List.getElem?_set_ne (by omega)]

/-- Witness for C6 at the example-2 input: two assertions, two results,
and replacing assertion 1 does not change result 0. -/
theorem results_alignment_witness :
    (0 : Nat) ≠ 1 ∧
    (results (c2Input (.str "x") .none [] 0)).length = 2 ∧
    (results { c2Input (.str "x") .none [] 0 with
        assertions := (c2Input (.str "x") .none [] 0).assertions.set 1 (.lit (.bool true)) })[0]? =
      (results (c2Input (.str "x") .none [] 0))[0]? := by
  refine ⟨by decide, ?_, ?_⟩
  · exact (results_alignment (c2Input (.str "x") .none [] 0)).2.1
  · exact (results_alignment (c2Input (.str "x") .none [] 0)).2.2.2 0 1
      (.lit (.bool true)) (by decide)

/-! ## The explanation-quality grader
(`src/examples/code-explainer/graders/explanation_quality.py`)

Its regex patterns use literals (optionally `(?i)`), alternation, `?`,
character classes (`[\s-]`, `\d`), `\w+` and `\b`; the engine below
implements exactly these constructs over character lists, with
`re.search` as a scan over all start positions. -/

inductive RE where
  | eps
  | nomatch
  | cls (p : Char → Bool)
  | cat (a b : RE)
  | alt (a b : RE)
  | opt (a : RE)
  | plus (p : Char → Bool)
  | wb

/-- `\w` (ASCII scope, which covers all strings the grader handles). -/
def isWordChar (c : Char) : Bool := c.isAlphanum || c == '_'

def wordOpt : Option Char → Bool
  | some c => isWordChar c
  | Option.none => false

/-- All ways `p+` can consume a non-empty run of `p`-characters,
returned as (last consumed char, rest) pairs — the backtracking choices. -/
def plusMatches (p : Char → Bool) : List Char → List (Option Char × List Char)
  | [] => []
  | c :: rest => if p c then (some c, rest) :: plusMatches p rest else []

/-- All ways `r` can match a prefix of `s`, given the character just
before the match position (`prev`, for `\b`).  Each result is the last
character consumed and the remaining input. -/
def reMatches : RE → Option Char → List Char → List (Option Char × List Char)
  | .eps, prev, s => [(prev, s)]
  | .nomatch, _, _ => []
  | .cls p, _, s =>
      match s with
      | [] => []
      | c :: rest => if p c then [(some c, rest)] else []
  | .cat a b, prev, s => (reMatches a prev s).flatMap (fun pr => reMatches b pr.1 pr.2)
  | .alt a b, prev, s => reMatches a prev s ++ reMatches b prev s
  | .opt a, prev, s => (prev, s) :: reMatches a prev s
  | .plus p, _, s => plusMatches p s
  | .wb, prev, s => if wordOpt prev != wordOpt s.head? then [(prev, s)] else []

def searchAux (r : RE) : Option Char → List Char → Bool
  | prev, [] => !(reMatches r prev []).isEmpty
  | prev, c :: t => !(reMatches r prev (c :: t)).isEmpty || searchAux r (some c) t

/-- `re.search(r, s)` as a boolean: does `r` match anywhere in `s`? -/
def reSearch (r : RE) (s : String) : Bool := searchAux r Option.none s.data

def litChar (c : Char) : RE := .cls (fun d => d == c)

/-- A case-insensitive character (the `(?i)` flag). -/
def litCIChar (c : Char) : RE := .cls (fun d => d.toLower == c.toLower)

def seqList (rs : List RE) : RE := rs.foldr RE.cat .eps

def lit (w : String) : RE := seqList (w.data.map litChar)

def litCI (w : String) : RE := seqList (w.data.map litCIChar)

def altList : List RE → RE
  | [] => .nomatch
  | [r] => r
  | r :: rs => .alt r (altList rs)

/-- `\s` (ASCII scope). -/
def pyIsSpace (c : Char) : Bool :=
  c == ' ' || c == '\t' || c == '\n' || c == '\r' || c == '\x0b' || c == '\x0c'

/-- The class `[\s-]`. -/
def wsOrDash (c : Char) : Bool := pyIsSpace c || c == '-'

/-- `min_length = 200` (`explanation_quality.py` line 55). -/
def min_length : Nat := 200

/-- Check 1: `len(output) >= min_length` (lines 56-60). -/
def lengthCheck (output : String) : Bool := decide (min_length ≤ output.length)

/-- `section_patterns` (lines 64-68): `(?i)(overview|summary|introduction)`,
`(?i)(step[\s-]?by[\s-]?step|step \d|first,|then,|finally,|1\.)`,
`(?i)(key concept|important|note|remember)`. -/
def section_patterns : List (RE × String) :=
  [(altList [litCI "overview", litCI "summary", litCI "introduction"], "overview"),
   (altList [seqList [litCI "step", .opt (.cls wsOrDash), litCI "by",
                      .opt (.cls wsOrDash), litCI "step"],
             seqList [litCI "step ", .cls Char.isDigit],
             litCI "first,", litCI "then,", litCI "finally,", lit "1."],
    "steps"),
   (altList [litCI "key concept", litCI "important", litCI "note", litCI "remember"],
    "key points")]

/-- `sections_found` (lines 69-72). -/
def sections_found (output : String) : List String :=
  (section_patterns.filter (fun pn => reSearch pn.1 output)).map Prod.snd

/-- Check 2: `len(sections_found) >= 2` (line 74). -/
def structureCheck (output : String) : Bool :=
  decide (2 ≤ (sections_found output).length)

/-- `language_indicators` (lines 82-88); `(?i)` flags per the source:
only the language-name word is case-insensitive in `python`/`java`,
keyword patterns such as `\bdef\b` are case-sensitive. -/
def language_indicators : List (String × List RE) :=
  [("python",
    [seqList [.wb, litCI "python", .wb], seqList [.wb, lit "def", .wb],
     seqList [.wb, lit "import", .wb], seqList [lit "__", .plus isWordChar, lit "__"]]),
   ("javascript",
    [seqList [.wb, litCI "javascript", .wb], seqList [.wb, litCI "js", .wb],
     seqList [.wb, lit "function", .wb], seqList [.wb, lit "const", .wb],
     seqList [.wb, lit "let", .wb]]),
   ("sql",
    [seqList [.wb, litCI "sql", .wb], seqList [.wb, litCI "query", .wb],
     seqList [.wb, litCI "select", .wb], seqList [.wb, litCI "table", .wb]]),
   ("java",
    [seqList [.wb, litCI "java", .wb], seqList [.wb, lit "class", .wb],
     seqList [.wb, lit "public", .wb], seqList [.wb, lit "private", .wb]]),
   ("typescript",
    [seqList [.wb, litCI "typescript", .wb], seqList [.wb, litCI "ts", .wb],
     seqList [.wb, lit "interface", .wb], seqList [.wb, lit "type", .wb]])]

/-- Check 3 (lines 90-101): when a language is configured and known, at
least one indicator must match; otherwise the check passes ("benefit of
doubt"). -/
def languageCheck (language output : String) : Bool :=
  if language != "" then
    match language_indicators.find? (fun p => p.1 == language) with
    | some p => !((p.2.filter (fun r => reSearch r output)).isEmpty)
    | Option.none => true
  else true

/-- `educational_patterns` (lines 105-111). -/
def educational_patterns : List RE :=
  [seqList [litCI "this ", altList [litCI "code", litCI "function", litCI "method",
                                    litCI "query", litCI "snippet"]],
   altList [litCI "returns", litCI "produces", litCI "creates", litCI "generates",
            litCI "outputs"],
   altList [litCI "means", litCI "indicates", litCI "represents", litCI "is used to"],
   altList [litCI "because", litCI "since", litCI "therefore", litCI "so that"],
   altList [litCI "for example", litCI "such as", litCI "like", litCI "e.g."]]

def edu_matches (output : String) : List RE :=
  educational_patterns.filter (fun r => reSearch r output)

/-- Check 4: `len(edu_matches) >= 2` (line 114). -/
def eduCheck (output : String) : Bool := decide (2 ≤ (edu_matches output).length)

/-- `error_patterns` (lines 121-128). -/
def error_patterns : List RE :=
  [seqList [litCI "i don", .opt (litChar '\''), litCI "t know"],
   seqList [litCI "i cannot ", altList [litCI "explain", litCI "understand", litCI "help"]],
   litCI "error occurred",
   seqList [litCI "unable to ", altList [litCI "process", litCI "analyze", litCI "explain"]],
   litCI "not sure what",
   seqList [litCI "invalid ", altList [litCI "code", litCI "syntax", litCI "input"]]]

def errors_found (output : String) : List RE :=
  error_patterns.filter (fun r => reSearch r output)

/-- Check 5: `not errors_found` (line 131). -/
def noErrorCheck (output : String) : Bool := (errors_found output).isEmpty

/-- The grading context: `context["output"]` and
`context["task"]["inputs"]["context"]["language"]` (the only task field
`grade` reads; `""` when absent). -/
structure GradeContext where
  output : String
  language : String

/-- The result dict (lines 140-150).  `score`/`passed`/`threshold` and
the numeric/structured detail fields; the presentation-only formatted
strings (`message`, `checks`) are omitted. -/
structure GradeResult where
  score : ℚ
  passed : Bool
  output_length : Nat
  language_detected : String
  threshold : ℚ

/-- The five 0.2-point contributions accumulated into `score`
(lines 50-135), in source order. -/
def gradeScore (output language : String) : ℚ :=
  (if lengthCheck output then 0.2 else 0) +
  (if structureCheck output then 0.2 else 0) +
  (if languageCheck language output then 0.2 else 0) +
  (if eduCheck output then 0.2 else 0) +
  (if noErrorCheck output then 0.2 else 0)

/-- `grade` (lines 23-150): score, `passed = score >= 0.6`, details. -/
def grade (ctx : GradeContext) : GradeResult :=
  { score := gradeScore ctx.output ctx.language,
    passed := decide ((0.6 : ℚ) ≤ gradeScore ctx.output ctx.language),
    output_length := ctx.output.length,
    language_detected := ctx.language,
    threshold := 0.6 }

/-- The end-to-end example-1 output text. -/
def exOutput : String :=
  "This function returns the sum. For example, add(1,2) returns 3. Overview: it validates inputs, then adds them."

/-- Counterexample to C3: on the example-1 output the length check does
not pass (the text has 110 characters, under the grader's hard-coded
200-character minimum) and the structured-sections check does not pass
either — the steps pattern requires `step-by-step`, `step <digit>`,
`first,`/`then,`/`finally,` (with comma) or `1.`, none of which occurs
in `"... inputs, then adds them."` — so only `"overview"` is found. -/
theorem example1_counterexample :
    ¬(lengthCheck exOutput = true ∧ structureCheck exOutput = true ∧
      eduCheck exOutput = true) := by
  decide

theorem exOutput_score : gradeScore exOutput "" = 0.6 := by
  rw [gradeScore,
    show lengthCheck exOutput = false from by decide,
    show structureCheck exOutput = false from by decide,
    show languageCheck "" exOutput = true from by decide,
    show eduCheck exOutput = true from by decide,
    show noErrorCheck exOutput = true from by decide]
  norm_num

/-- C3 amended: on the example-1 output the length check fails (110 <
200) and the structured-sections check finds only `"overview"` (the
steps pattern needs a comma after `then`, absent here) and fails; the
educational-tone check does pass, via `this function`, `returns` and
`for example`; with the language check skipped and no error indicators,
the total score is 0.6 and the grader passes at its 0.6 threshold. -/
theorem example1_amended :
    lengthCheck exOutput = false ∧
    exOutput.length = 110 ∧
    sections_found exOutput = ["overview"] ∧
    structureCheck exOutput = false ∧
    eduCheck exOutput = true ∧
    noErrorCheck exOutput = true ∧
    gradeScore exOutput "" = 0.6 ∧
    (grade { output := exOutput, language := "" }).passed = true := by
  refine ⟨by decide, by decide, by decide, by decide, by decide, by decide,
    exOutput_score, ?_⟩
  simp only [grade, exOutput_score]
  norm_num

/-- C7: the grader's `passed` flag is exactly `score ≥ 0.6`, the
hard-coded threshold, for every grading context. -/
theorem grade_passed_iff_threshold (ctx : GradeContext) :
    (grade ctx).passed = true ↔ (0.6 : ℚ) ≤ (grade ctx).score := by
  simp [grade, decide_eq_true_eq]

/-- C8: for every grading context, the explanation-quality score lies in
[0, 1]. -/
theorem grade_score_in_unit (ctx : GradeContext) :
    0 ≤ (grade ctx).score ∧ (grade ctx).score ≤ 1 := by
  show 0 ≤ gradeScore ctx.output ctx.language ∧
    gradeScore ctx.output ctx.language ≤ 1
  rw [gradeScore]
  split_ifs <;> norm_num

/-! ## The Copilot executor (`src/skill_eval/executors/copilot.py`) -/

/-- Modelled from the spec: one session event `{type, data}` (§6,
executor boundary); the `SessionEvent` class itself lives in
`skill_eval/executors/base.py`, outside the given sources. -/
structure SessionEvent where
  type : String
  data : List (String × Value)

/-- Modelled from the spec: the `ExecutionResult` record (§6): output
text, ordered events, tool-call records, duration, optional error text
and terminal success flag, plus the model/skill fields `copilot.py`
fills in. -/
structure ExecutionResult where
  output : String
  events : List SessionEvent
  model : String
  skill_name : Option String
  duration_ms : Nat
  tool_calls : List Value
  error : Option String
  success : Bool

/-- How the awaited `done_event` ended: `session.idle`, a
`session.error` event carrying an optional message, or
`asyncio.TimeoutError`. -/
inductive WaitOutcome where
  | idle
  | sessionError (msg : Option String)
  | timedOut

/-- How the whole `try` block ended: an exception raised anywhere inside
it (caught by `except Exception as e` on lines 200-201), or the wait
completed with the given outcome (exceptions from `session.destroy` are
swallowed on lines 195-198 and do not change the outcome). -/
inductive TryOutcome where
  | raised (msg : String)
  | waited (w : WaitOutcome)

/-- The `error` variable after the `try` block (`copilot.py`
lines 138-201): a raised exception is stringified; a `session.error`
event stores `event.data.get("message", "Unknown error")` (lines
174-176); a timeout stores `f"Session timed out after {timeout}s"`
(lines 191-192); a clean `session.idle` leaves it `None`. -/
def executeError (timeoutSeconds : Nat) : TryOutcome → Option String
  | .raised m => some m
  | .waited .idle => Option.none
  | .waited (.sessionError m) => some (m.getD "Unknown error")
  | .waited .timedOut =>
      some ("Session timed out after " ++ toString timeoutSeconds ++ "s")

/-- One observed run of the `try` block: the events the handler
collected, the assistant-message parts collected into `output_parts`,
and how the block ended.  The cooperative-concurrency session itself is
external; its observable effects are exactly these. -/
structure SessionRun where
  events : List SessionEvent
  outputParts : List String
  outcome : TryOutcome

/-- `CopilotExecutor.execute` (`copilot.py` lines 125-222), with the
awaited session abstracted as the observed `SessionRun`: output is
`"".join(output_parts)` (line 204), tool calls are the
`tool.execution_start` events' `{name, arguments}` records (lines
207-211), `error` as in `executeError`, and `success = error is None`
(line 221). -/
def CopilotExecutor.execute (timeoutSeconds : Nat) (model : String)
    (skillName : Option String) (run : SessionRun) (durationMs : Nat) :
    ExecutionResult :=
  let error := executeError timeoutSeconds run.outcome
  { output := String.join run.outputParts,
    events := run.events,
    model := model,
    skill_name := skillName,
    duration_ms := durationMs,
    tool_calls := (run.events.filter (fun e => e.type == "tool.execution_start")).map
      (fun e => .dict
        [("name", ((e.data.find? (fun p => p.1 == "name")).map Prod.snd).getD .none),
         ("arguments",
          ((e.data.find? (fun p => p.1 == "arguments")).map Prod.snd).getD .none)]),
    error := error,
    success := error.isNone }

/-- C9: when the session does not complete within the configured
timeout, `execute` still returns a terminal `ExecutionResult` (the
function is total on the timed-out outcome), whose error text reports
the timeout and whose success flag is false. -/
theorem execute_timeout_terminal (T durationMs : Nat) (model : String)
    (skillName : Option String) (events : List SessionEvent) (parts : List String) :
    (CopilotExecutor.execute T model skillName
      ⟨events, parts, .waited .timedOut⟩ durationMs).success = false ∧
    (CopilotExecutor.execute T model skillName
      ⟨events, parts, .waited .timedOut⟩ durationMs).error =
        some ("Session timed out after " ++ toString T ++ "s") :=
  ⟨rfl, rfl⟩

/-- C10: every `ExecutionResult` the executor returns satisfies
`success = (error is None)`, and an exception raised anywhere inside
execution is captured into `error` (forcing `success = false`) rather
than propagated. -/
theorem execute_success_iff_no_error (T durationMs : Nat) (model : String)
    (skillName : Option String) (run : SessionRun) :
    ((CopilotExecutor.execute T model skillName run durationMs).success = true ↔
      (CopilotExecutor.execute T model skillName run durationMs).error = Option.none) ∧
    (∀ (m : String) (events : List SessionEvent) (parts : List String),
      (CopilotExecutor.execute T model skillName
        ⟨events, parts, .raised m⟩ durationMs).success = false ∧
      (CopilotExecutor.execute T model skillName
        ⟨events, parts, .raised m⟩ durationMs).error = some m) := by
  constructor
  · show (executeError T run.outcome).isNone = true ↔
      executeError T run.outcome = Option.none
    cases executeError T run.outcome <;> simp
  · intro m events parts
    exact ⟨rfl, rfl⟩

end Waza
